import Mathlib

/-!
Shallow embedding of the gousb Device/Config lifecycle (src/usb/device.go and
src/usb/config.go). The native libusb layer is out of scope for the package
and is modelled as an oracle of call results; every operation additionally
returns the trace of native calls and lock events it performs, in order.
Interface numbers and configuration numbers are Go ints, modelled as Int;
uint8 conversions at the native boundary are modelled as reduction mod 256.
-/

namespace Gousb

/-- Handle models the libusbDevHandle pointer held by a Device: none is the
nil pointer (the closed sentinel), some () is a live handle. -/
abbrev Handle := Option Unit

/-- Modelled from the spec: the alternate-setting descriptor carried by an
Interface (the InterfaceSetting type is not part of the given sources; the
spec only requires it to be an opaque descriptor value). -/
structure InterfaceSetting where
  id : Nat
deriving DecidableEq, Repr

/-- Modelled from the spec: the interface descriptor. Its definition is not
part of the given sources; config.go only reads its AltSettings list, which
the spec describes as the list of alternate settings of the interface. -/
structure InterfaceInfo where
  AltSettings : List InterfaceSetting
deriving DecidableEq, Repr

/-- ConfigInfo from config.go: information about a USB device configuration. -/
structure ConfigInfo where
  Config : Int
  SelfPowered : Bool
  RemoteWakeup : Bool
  MaxPower : Nat
  Interfaces : List InterfaceInfo
deriving DecidableEq, Repr

/-- Modelled from the spec: the device descriptor embedded in Device.
Its definition is not part of the given sources; device.go only reads its
Configs list (one ConfigInfo per supported configuration). -/
structure Descriptor where
  Configs : List ConfigInfo
deriving DecidableEq, Repr

/-- Device from device.go. The claimed field is a pointer to the claimed
Config in Go; the code reads only its nil-ness and its Info, so the pointer
is embedded as an optional ConfigInfo (breaking the Device/Config pointer
cycle that a Lean inductive cannot represent directly). -/
structure Device where
  handle : Handle
  descriptor : Descriptor
  claimed : Option ConfigInfo
deriving DecidableEq, Repr

/-- Config from config.go. The claimed map[int]bool records exactly its key
set (entries are only ever set to true), embedded as a Finset Int; the dev
back-pointer is passed explicitly to each operation instead of being stored. -/
structure Config where
  Info : ConfigInfo
  ControlTimeout : Nat
  claimed : Finset Int
deriving DecidableEq

/-- Interface from the repository: a claimed interface at a chosen alternate
setting, holding the resolved setting and its owning Config. -/
structure Interface where
  Setting : InterfaceSetting
  config : Config
deriving DecidableEq

/-- Errors produced by device.go and config.go. Go errors are formatted
strings; each constructor records the construction site and the data
interpolated into the message (for the config-close busy error the set of
still-claimed interface numbers, whose printed order Go randomizes, hence a
Finset; for out-of-range errors the valid element count). Native errors are
opaque codes wrapped verbatim. -/
inductive UsbError
  | configCloseBusy (info : ConfigInfo) (ifs : Finset Int)
  | doubleClose
  | deviceCloseBusy (cfg : Int)
  | resetBusy
  | configNotFound (cfgNum : Int)
  | setConfigFailed (cfg : Int) (e : Nat)
  | intfOutOfRange (intf : Int) (count : Nat)
  | altOutOfRange (ifInfo : InterfaceInfo) (alt : Int) (count : Nat)
  | claimFailed (intf : Int) (e : Nat)
  | setAltFailed (alt intf : Int) (e : Nat)
  | native (e : Nat)
deriving DecidableEq

/-- Trace events: one per native-layer call (recording the handle passed and
the arguments) and one per lock/unlock of the config or device mutex. -/
inductive Ev
  | callControl (h : Handle) (timeout rType request val idx dataLen : Nat)
  | callClaim (h : Handle) (intf : Nat)
  | callRelease (h : Handle) (intf : Nat)
  | callSetAlt (h : Handle) (intf alt : Nat)
  | callSetConfig (h : Handle) (cfg : Nat)
  | callGetConfig (h : Handle)
  | callReset (h : Handle)
  | callGetStringDesc (h : Handle) (idx : Int)
  | callSetAutoDetach (h : Handle) (v : Nat)
  | callClose (h : Handle)
  | lockCfg
  | unlockCfg
  | lockDev
  | unlockDev
deriving DecidableEq

/-- Oracle for the results of native libusb calls, which the spec treats as
opaque external collaborators: each call either succeeds or yields an opaque
error code. -/
structure NativeOracle where
  claimErr : Nat → Option Nat
  setAltErr : Nat → Nat → Option Nat
  releaseErr : Nat → Option Nat
  setConfigErr : Nat → Option Nat
  resetErr : Option Nat
  getConfigRes : Nat × Option Nat
  controlRes : Int × Option Nat
  stringDescRes : Int → String × Option Nat
  autoDetachErr : Option Nat

/-- State held by the native layer itself: the set of interface numbers
currently claimed at the native level (used to express that a rollback
leaves the interface unclaimed at the native layer). -/
structure NativeState where
  claimed : Finset Nat
deriving DecidableEq

/-- Native claimInterface call: on success the interface number joins the
native claimed set. -/
def libusbClaim (o : NativeOracle) (h : Handle) (intf : Nat) (ns : NativeState) :
    Option Nat × NativeState × List Ev :=
  match o.claimErr intf with
  | some e => (some e, ns, [.callClaim h intf])
  | none => (none, ⟨insert intf ns.claimed⟩, [.callClaim h intf])

/-- Native releaseInterface call: on success the interface number leaves the
native claimed set. -/
def libusbRelease (o : NativeOracle) (h : Handle) (intf : Nat) (ns : NativeState) :
    Option Nat × NativeState × List Ev :=
  match o.releaseErr intf with
  | some e => (some e, ns, [.callRelease h intf])
  | none => (none, ⟨ns.claimed.erase intf⟩, [.callRelease h intf])

/-- Native setAltSetting call: does not change the native claimed set. -/
def libusbSetAlt (o : NativeOracle) (h : Handle) (intf alt : Nat) (ns : NativeState) :
    Option Nat × NativeState × List Ev :=
  (o.setAltErr intf alt, ns, [.callSetAlt h intf alt])

/-- Config.Close from config.go lines 59-73: under the config lock, if any
interface is still claimed, fail with the busy error naming the still-open
interface numbers; otherwise take the device lock and clear the owning
Device claimed reference. Returns (error?, config after, device after, trace). -/
def Config.Close (c : Config) (d : Device) :
    Option UsbError × Config × Device × List Ev :=
  if 0 < c.claimed.card then
    (some (.configCloseBusy c.Info c.claimed), c, d, [.lockCfg, .unlockCfg])
  else
    (none, c, { d with claimed := none },
      [.lockCfg, .lockDev, .unlockDev, .unlockCfg])

/-- Config.Control from config.go lines 80-82: pass-through control transfer
using the device handle and the ControlTimeout; no claim-state interaction. -/
def Config.Control (o : NativeOracle) (c : Config) (d : Device)
    (rType request val idx : Nat) (data : List Nat) :
    (Int × Option UsbError) × List Ev :=
  ((o.controlRes.1, o.controlRes.2.map .native),
    [.callControl d.handle c.ControlTimeout rType request val idx data.length])

/-- Config.Interface from config.go lines 85-111: validate intf and alt as
0-based indices (failing with errors that carry the valid counts, before any
native call); claim the interface natively; set the alternate setting,
rolling the claim back with a release (whose error is discarded) if that
fails; on full success record intf in the claimed set under the config lock
and return the Interface. Returns (result, config after, native state after,
trace). -/
def Config.Interface (o : NativeOracle) (c : Config) (d : Device)
    (ns : NativeState) (intf alt : Int) :
    Except UsbError Interface × Config × NativeState × List Ev :=
  if intf < 0 ∨ (c.Info.Interfaces.length : Int) ≤ intf then
    (.error (.intfOutOfRange intf c.Info.Interfaces.length), c, ns, [])
  else
    let ifInfo := c.Info.Interfaces.getD intf.toNat ⟨[]⟩
    if alt < 0 ∨ (ifInfo.AltSettings.length : Int) ≤ alt then
      (.error (.altOutOfRange ifInfo alt ifInfo.AltSettings.length), c, ns, [])
    else
      match libusbClaim o d.handle (intf.toNat % 256) ns with
      | (some e, ns1, t1) => (.error (.claimFailed intf e), c, ns1, t1)
      | (none, ns1, t1) =>
        match libusbSetAlt o d.handle (intf.toNat % 256) (alt.toNat % 256) ns1 with
        | (some e, ns2, t2) =>
          let r := libusbRelease o d.handle (intf.toNat % 256) ns2
          (.error (.setAltFailed alt intf e), c, r.2.1, t1 ++ t2 ++ r.2.2)
        | (none, ns2, t2) =>
          let c2 : Config := { c with claimed := insert intf c.claimed }
          (.ok ⟨ifInfo.AltSettings.getD alt.toNat ⟨0⟩, c2⟩, c2, ns2,
            t1 ++ t2 ++ [.lockCfg, .unlockCfg])

/-- Device.Reset from device.go lines 36-43: under the device lock, fail with
the busy error if a Config is claimed, otherwise delegate to the native
reset call and return its result verbatim. -/
def Device.Reset (o : NativeOracle) (d : Device) :
    Option UsbError × Device × List Ev :=
  if d.claimed.isSome then
    (some .resetBusy, d, [.lockDev, .unlockDev])
  else
    (o.resetErr.map .native, d, [.lockDev, .callReset d.handle, .unlockDev])

/-- Device.ActiveConfig from device.go lines 47-50: query the native layer
for the active configuration number; no lock taken, no field touched. -/
def Device.ActiveConfig (o : NativeOracle) (d : Device) :
    (Int × Option UsbError) × Device × List Ev :=
  (((o.getConfigRes.1 : Int), o.getConfigRes.2.map .native), d,
    [.callGetConfig d.handle])

/-- Device.Config from device.go lines 57-80: linear scan of the descriptor
configuration list for the first entry whose configuration number equals
cfgNum (not-found error if absent); native setConfiguration call (its
failure returned, device unchanged); on success record the new Config as
claimed under the device lock. Returns (result, device after, trace). -/
def Device.Config (o : NativeOracle) (d : Device) (cfgNum : Int) :
    Except UsbError Config × Device × List Ev :=
  match d.descriptor.Configs.find? (fun info => info.Config == cfgNum) with
  | none => (.error (.configNotFound cfgNum), d, [])
  | some info =>
    match o.setConfigErr (cfgNum % 256).toNat with
    | some e => (.error (.setConfigFailed cfgNum e), d,
        [.callSetConfig d.handle (cfgNum % 256).toNat])
    | none =>
      let cfg : Gousb.Config := { Info := info, ControlTimeout := 0, claimed := ∅ }
      (.ok cfg, { d with claimed := some info },
        [.callSetConfig d.handle (cfgNum % 256).toNat, .lockDev, .unlockDev])

/-- Device.Close from device.go lines 83-95: double-close error if the handle
is already nil; busy error (naming the open configuration number) if a
Config is claimed; otherwise close the native handle and set it to nil. -/
def Device.Close (d : Device) :
    Option UsbError × Device × List Ev :=
  if d.handle = none then
    (some .doubleClose, d, [])
  else
    match d.claimed with
    | some info =>
      (some (.deviceCloseBusy info.Config), d, [.lockDev, .unlockDev])
    | none =>
      (none, { d with handle := none }, [.lockDev, .callClose d.handle, .unlockDev])

/-- Device.GetStringDescriptor from device.go lines 101-103: pure
pass-through to the native layer. -/
def Device.GetStringDescriptor (o : NativeOracle) (d : Device) (descIndex : Int) :
    (String × Option UsbError) × List Ev :=
  (((o.stringDescRes descIndex).1, (o.stringDescRes descIndex).2.map .native),
    [.callGetStringDesc d.handle descIndex])

/-- Device.SetAutoDetach from device.go lines 109-118: convert the flag to
1 or 0 and pass through to the native layer. -/
def Device.SetAutoDetach (o : NativeOracle) (d : Device) (autodetach : Bool) :
    Option UsbError × List Ev :=
  (o.autoDetachErr.map .native,
    [.callSetAutoDetach d.handle (if autodetach then 1 else 0)])

/-- Projection of a trace onto its lock and unlock events. -/
def lockEvents (t : List Ev) : List Ev :=
  t.filter fun e =>
    match e with
    | .lockCfg => true
    | .unlockCfg => true
    | .lockDev => true
    | .unlockDev => true
    | _ => false

/-- Decides whether a trace acquires the device lock and later acquires the
config lock (the acquisition order that the lock-ordering invariant forbids). -/
def devThenCfg : List Ev → Bool
  | [] => false
  | .lockDev :: rest => rest.contains .lockCfg || devThenCfg rest
  | _ :: rest => devThenCfg rest

end Gousb

namespace Gousb

/-- Projection of a trace onto its native-layer calls (everything that is
not a lock or unlock event). -/
def nativeCalls (t : List Ev) : List Ev :=
  t.filter fun e =>
    match e with
    | .lockCfg => false
    | .unlockCfg => false
    | .lockDev => false
    | .unlockDev => false
    | _ => true

/-- Sample interface descriptor with two alternate settings. -/
def ifSample : InterfaceInfo := ⟨[⟨0⟩, ⟨1⟩]⟩

/-- Sample configuration number 1 with three interfaces. -/
def cfgInfo1 : ConfigInfo := ⟨1, false, false, 100, [ifSample, ifSample, ifSample]⟩

/-- Sample descriptor holding only configuration 1. -/
def desc1 : Descriptor := ⟨[cfgInfo1]⟩

/-- Sample open device with no claimed configuration. -/
def dev0 : Device := ⟨some (), desc1, none⟩

/-- Sample open device whose configuration 1 is claimed. -/
def devClaimed : Device := ⟨some (), desc1, some cfgInfo1⟩

/-- Sample closed device (nil handle). -/
def devClosed : Device := ⟨none, desc1, none⟩

/-- Sample config for configuration 1 with no claimed interfaces. -/
def cfg0 : Config := ⟨cfgInfo1, 0, ∅⟩

/-- Sample config with interfaces 1 and 2 still claimed. -/
def cfgBusy : Config := ⟨cfgInfo1, 0, {1, 2}⟩

/-- Oracle on which every native call succeeds. -/
def oOk : NativeOracle :=
  ⟨fun _ => none, fun _ _ => none, fun _ => none, fun _ => none,
   none, (1, none), (0, none), fun _ => ("", none), none⟩

/-- Oracle on which setAltSetting fails with code 7 and everything else
succeeds. -/
def oAltFail : NativeOracle := { oOk with setAltErr := fun _ _ => some 7 }

/-- Oracle on which setAltSetting fails with code 7, releaseInterface fails
with code 9, and everything else succeeds. -/
def oAltRelFail : NativeOracle :=
  { oOk with setAltErr := fun _ _ => some 7, releaseErr := fun _ => some 9 }

/-- Scans a trace keeping track of whether the device lock is held and
reports whether the config lock is ever acquired while the device lock is
held, which is the acquisition order the lock-ordering invariant forbids. -/
def acquiresCfgWhileDevHeld (devHeld : Bool) : List Ev → Bool
  | [] => false
  | .lockDev :: r => acquiresCfgWhileDevHeld true r
  | .unlockDev :: r => acquiresCfgWhileDevHeld false r
  | .lockCfg :: r => devHeld || acquiresCfgWhileDevHeld devHeld r
  | _ :: r => acquiresCfgWhileDevHeld devHeld r

/-- C1: Config.Close succeeds iff the claimed-interface set is empty at call
time; on success it leaves the Config unchanged and clears the owning Device
claimed reference to nil, and on failure it returns the busy error carrying
the set of every still-claimed interface number and leaves both the Config
and the Device unchanged. -/
theorem C1_config_close_iff_no_claimed_interfaces (c : Config) (d : Device) :
    ((Config.Close c d).1 = none ↔ c.claimed = ∅)
    ∧ (c.claimed = ∅ →
        (Config.Close c d).2.1 = c
        ∧ (Config.Close c d).2.2.1 = { d with claimed := none })
    ∧ (c.claimed ≠ ∅ →
        (Config.Close c d).1 = some (.configCloseBusy c.Info c.claimed)
        ∧ (Config.Close c d).2.1 = c
        ∧ (Config.Close c d).2.2.1 = d) := by
  unfold Config.Close
  rcases Finset.eq_empty_or_nonempty c.claimed with he | hne
  · rw [if_neg (by simp [he])]
    simp [he]
  · rw [if_pos (Finset.card_pos.mpr hne)]
    simp [Finset.nonempty_iff_ne_empty.mp hne]

/-- Witness for C1 at concrete states: an empty claimed set closes
successfully and clears the device reference; a non-empty one fails busy. -/
theorem C1_config_close_iff_no_claimed_interfaces_witness :
    (cfg0.claimed = ∅
      ∧ ((Config.Close cfg0 devClaimed).2.1 = cfg0
          ∧ (Config.Close cfg0 devClaimed).2.2.1 = { devClaimed with claimed := none }))
    ∧ (cfgBusy.claimed ≠ ∅
      ∧ ((Config.Close cfgBusy devClaimed).1
            = some (.configCloseBusy cfgBusy.Info cfgBusy.claimed)
          ∧ (Config.Close cfgBusy devClaimed).2.1 = cfgBusy
          ∧ (Config.Close cfgBusy devClaimed).2.2.1 = devClaimed)) :=
  ⟨⟨by decide, (C1_config_close_iff_no_claimed_interfaces cfg0 devClaimed).2.1 (by decide)⟩,
   ⟨by decide, (C1_config_close_iff_no_claimed_interfaces cfgBusy devClaimed).2.2 (by decide)⟩⟩

end Gousb

namespace Gousb

/-- C5: Config.Interface with intf outside the interface table or alt outside
the alternate-setting table of the selected interface fails with the
out-of-range error that carries the valid element count of the corresponding
table, performs no native-layer call (empty trace), and changes nothing. -/
theorem C5_interface_out_of_range (o : NativeOracle) (c : Config) (d : Device)
    (ns : NativeState) (intf alt : Int) :
    ((intf < 0 ∨ (c.Info.Interfaces.length : Int) ≤ intf) →
      (Config.Interface o c d ns intf alt).1
          = .error (.intfOutOfRange intf c.Info.Interfaces.length)
      ∧ (Config.Interface o c d ns intf alt).2.1 = c
      ∧ (Config.Interface o c d ns intf alt).2.2.1 = ns
      ∧ (Config.Interface o c d ns intf alt).2.2.2 = [])
    ∧ (0 ≤ intf → intf < (c.Info.Interfaces.length : Int) →
      (alt < 0 ∨ ((c.Info.Interfaces.getD intf.toNat ⟨[]⟩).AltSettings.length : Int) ≤ alt) →
      (Config.Interface o c d ns intf alt).1
          = .error (.altOutOfRange (c.Info.Interfaces.getD intf.toNat ⟨[]⟩) alt
              (c.Info.Interfaces.getD intf.toNat ⟨[]⟩).AltSettings.length)
      ∧ (Config.Interface o c d ns intf alt).2.1 = c
      ∧ (Config.Interface o c d ns intf alt).2.2.1 = ns
      ∧ (Config.Interface o c d ns intf alt).2.2.2 = []) := by
  constructor
  · intro h
    simp [Config.Interface, h]
  · intro h0 h1 h2
    have hni : ¬(intf < 0 ∨ (c.Info.Interfaces.length : Int) ≤ intf) := by omega
    simp only [List.getD_eq_getElem?_getD] at h2
    simp [Config.Interface, hni, h2]

/-- Witness for C5: requesting interface 5 on a configuration that has 3
interfaces, and alt setting 5 on an interface that has 2 settings, both fail
out of range with the table size in the error and an empty trace. -/
theorem C5_interface_out_of_range_witness :
    ((5 < 0 ∨ ((cfg0.Info.Interfaces.length : Int) ≤ 5))
      ∧ ((Config.Interface oOk cfg0 dev0 ⟨∅⟩ 5 0).1
            = .error (.intfOutOfRange 5 cfg0.Info.Interfaces.length)
          ∧ (Config.Interface oOk cfg0 dev0 ⟨∅⟩ 5 0).2.1 = cfg0
          ∧ (Config.Interface oOk cfg0 dev0 ⟨∅⟩ 5 0).2.2.1 = ⟨∅⟩
          ∧ (Config.Interface oOk cfg0 dev0 ⟨∅⟩ 5 0).2.2.2 = []))
    ∧ ((Config.Interface oOk cfg0 dev0 ⟨∅⟩ 1 5).1
          = .error (.altOutOfRange (cfg0.Info.Interfaces.getD 1 ⟨[]⟩) 5
              (cfg0.Info.Interfaces.getD 1 ⟨[]⟩).AltSettings.length)
        ∧ (Config.Interface oOk cfg0 dev0 ⟨∅⟩ 1 5).2.2.2 = []) :=
  ⟨⟨by decide, (C5_interface_out_of_range oOk cfg0 dev0 ⟨∅⟩ 5 0).1 (by decide)⟩,
   let h := (C5_interface_out_of_range oOk cfg0 dev0 ⟨∅⟩ 1 5).2
     (by decide) (by decide) (by decide)
   ⟨h.1, h.2.2.2⟩⟩

/-- C8: Device.ActiveConfig returns exactly the native getConfiguration
result (configuration number and error passed through), leaves the Device
unchanged, and its result does not depend on the claimed field. -/
theorem C8_active_config_read_only (o : NativeOracle) (d : Device) :
    (Device.ActiveConfig o d).1
        = ((o.getConfigRes.1 : Int), o.getConfigRes.2.map .native)
    ∧ (Device.ActiveConfig o d).2.1 = d
    ∧ (∀ x, (Device.ActiveConfig o { d with claimed := x }).1
        = (Device.ActiveConfig o d).1) :=
  ⟨rfl, rfl, fun _ => rfl⟩

/-- C7: Device.Reset fails busy without any native call when a Config is
claimed, and otherwise delegates to the native reset call (made with the
device lock held) and returns its result verbatim. -/
theorem C7_reset_busy_or_delegate (o : NativeOracle) (d : Device) :
    (d.claimed ≠ none →
      (Device.Reset o d).1 = some .resetBusy
      ∧ (Device.Reset o d).2.1 = d
      ∧ nativeCalls (Device.Reset o d).2.2 = [])
    ∧ (d.claimed = none →
      (Device.Reset o d).1 = o.resetErr.map .native
      ∧ (Device.Reset o d).2.1 = d
      ∧ (Device.Reset o d).2.2 = [.lockDev, .callReset d.handle, .unlockDev]) := by
  constructor
  · intro h
    cases hc : d.claimed with
    | none => exact absurd hc h
    | some info => simp [Device.Reset, hc, nativeCalls]
  · intro h
    simp [Device.Reset, h]

/-- Witness for C7: reset on a device with a claimed config fails busy with
no native call; reset on an unclaimed device delegates to the native layer. -/
theorem C7_reset_busy_or_delegate_witness :
    (devClaimed.claimed ≠ none
      ∧ ((Device.Reset oOk devClaimed).1 = some .resetBusy
          ∧ (Device.Reset oOk devClaimed).2.1 = devClaimed
          ∧ nativeCalls (Device.Reset oOk devClaimed).2.2 = []))
    ∧ (dev0.claimed = none
      ∧ ((Device.Reset oOk dev0).1 = oOk.resetErr.map .native
          ∧ (Device.Reset oOk dev0).2.1 = dev0
          ∧ (Device.Reset oOk dev0).2.2
              = [.lockDev, .callReset dev0.handle, .unlockDev])) :=
  ⟨⟨by decide, (C7_reset_busy_or_delegate oOk devClaimed).1 (by decide)⟩,
   ⟨rfl, (C7_reset_busy_or_delegate oOk dev0).2 rfl⟩⟩

/-- C3: Device.Close fails with the double-close error when the handle is
already nil, fails busy (naming the open configuration number) when a Config
is claimed, and otherwise succeeds, invalidating the handle so that a second
Close returns the double-close error; it succeeds exactly when the handle is
live and no Config is claimed. -/
theorem C3_device_close_iff_no_claimed_config (d : Device) :
    ((Device.Close d).1 = none ↔ (d.handle ≠ none ∧ d.claimed = none))
    ∧ (d.handle = none →
        (Device.Close d).1 = some .doubleClose ∧ (Device.Close d).2.1 = d)
    ∧ (∀ info, d.handle ≠ none → d.claimed = some info →
        (Device.Close d).1 = some (.deviceCloseBusy info.Config)
        ∧ (Device.Close d).2.1 = d)
    ∧ (d.handle ≠ none → d.claimed = none →
        (Device.Close d).1 = none
        ∧ (Device.Close d).2.1 = { d with handle := none }
        ∧ (Device.Close (Device.Close d).2.1).1 = some .doubleClose) := by
  by_cases hh : d.handle = none
  · simp [Device.Close, hh]
  · cases hc : d.claimed with
    | some info => simp [Device.Close, hh, hc]
    | none => simp [Device.Close, hh, hc]

/-- Witness for C3: closing an already-closed device fails double-close;
closing a device with a claimed config fails busy; closing an open unclaimed
device succeeds and a second close fails double-close. -/
theorem C3_device_close_iff_no_claimed_config_witness :
    (devClosed.handle = none
      ∧ ((Device.Close devClosed).1 = some .doubleClose
          ∧ (Device.Close devClosed).2.1 = devClosed))
    ∧ ((Device.Close devClaimed).1 = some (.deviceCloseBusy cfgInfo1.Config)
        ∧ (Device.Close devClaimed).2.1 = devClaimed)
    ∧ ((Device.Close dev0).1 = none
        ∧ (Device.Close dev0).2.1 = { dev0 with handle := none }
        ∧ (Device.Close (Device.Close dev0).2.1).1 = some .doubleClose) :=
  ⟨⟨rfl, (C3_device_close_iff_no_claimed_config devClosed).2.1 rfl⟩,
   (C3_device_close_iff_no_claimed_config devClaimed).2.2.1 cfgInfo1
     (by decide) (by decide),
   (C3_device_close_iff_no_claimed_config dev0).2.2.2 (by decide) (by decide)⟩

end Gousb

namespace Gousb

/-- C2: in Config.Interface, when the native claim succeeds but setAltSetting
fails, the native release call for the same interface is issued before the
error is returned (the trace ends with the release), the setAltSetting error
is returned with no Interface value, intf is not added to the claimed set
(the Config is unchanged), and when the release itself succeeds the native
claimed set is left as it was before the call. -/
theorem C2_interface_setalt_rollback (o : NativeOracle) (c : Config) (d : Device)
    (ns : NativeState) (intf alt : Int) (e : Nat)
    (h0 : 0 ≤ intf) (h1 : intf < (c.Info.Interfaces.length : Int))
    (h2 : 0 ≤ alt)
    (h3 : alt < ((c.Info.Interfaces.getD intf.toNat ⟨[]⟩).AltSettings.length : Int))
    (hclaim : o.claimErr (intf.toNat % 256) = none)
    (halt : o.setAltErr (intf.toNat % 256) (alt.toNat % 256) = some e) :
    (Config.Interface o c d ns intf alt).1 = .error (.setAltFailed alt intf e)
    ∧ (Config.Interface o c d ns intf alt).2.1 = c
    ∧ (Config.Interface o c d ns intf alt).2.2.2 =
        [.callClaim d.handle (intf.toNat % 256),
         .callSetAlt d.handle (intf.toNat % 256) (alt.toNat % 256),
         .callRelease d.handle (intf.toNat % 256)]
    ∧ (o.releaseErr (intf.toNat % 256) = none →
        (Config.Interface o c d ns intf alt).2.2.1
          = ⟨ns.claimed.erase (intf.toNat % 256)⟩)
    ∧ (o.releaseErr (intf.toNat % 256) = none → intf.toNat % 256 ∉ ns.claimed →
        (Config.Interface o c d ns intf alt).2.2.1 = ns) := by
  have hni : ¬(intf < 0 ∨ (c.Info.Interfaces.length : Int) ≤ intf) := by omega
  have hna : ¬(alt < 0 ∨
      ((c.Info.Interfaces.getD intf.toNat ⟨[]⟩).AltSettings.length : Int) ≤ alt) := by
    omega
  simp only [List.getD_eq_getElem?_getD] at hna
  refine ⟨?_, ?_, ?_, ?_, ?_⟩
  · simp [Config.Interface, hni, hna, libusbClaim, libusbSetAlt, libusbRelease,
      hclaim, halt]
  · simp [Config.Interface, hni, hna, libusbClaim, libusbSetAlt, libusbRelease,
      hclaim, halt]
  · cases hr : o.releaseErr (intf.toNat % 256) <;>
      simp [Config.Interface, hni, hna, libusbClaim, libusbSetAlt, libusbRelease,
        hclaim, halt, hr]
  · intro hrel
    simp [Config.Interface, hni, hna, libusbClaim, libusbSetAlt, libusbRelease,
      hclaim, halt, hrel, Finset.erase_insert_eq_erase]
  · intro hrel hmem
    simp [Config.Interface, hni, hna, libusbClaim, libusbSetAlt, libusbRelease,
      hclaim, halt, hrel, Finset.erase_insert_eq_erase,
      Finset.erase_eq_of_not_mem hmem]

/-- Witness for C2: claiming interface 1 alt 1 on the oracle whose
setAltSetting fails with code 7 rolls back with a release and returns the
setAltSetting failure, leaving config and native state unchanged. -/
theorem C2_interface_setalt_rollback_witness :
    oAltFail.claimErr (Int.toNat 1 % 256) = none
    ∧ oAltFail.setAltErr (Int.toNat 1 % 256) (Int.toNat 1 % 256) = some 7
    ∧ ((Config.Interface oAltFail cfg0 dev0 ⟨∅⟩ 1 1).1
          = .error (.setAltFailed 1 1 7)
        ∧ (Config.Interface oAltFail cfg0 dev0 ⟨∅⟩ 1 1).2.1 = cfg0
        ∧ (Config.Interface oAltFail cfg0 dev0 ⟨∅⟩ 1 1).2.2.2 =
            [.callClaim dev0.handle (Int.toNat 1 % 256),
             .callSetAlt dev0.handle (Int.toNat 1 % 256) (Int.toNat 1 % 256),
             .callRelease dev0.handle (Int.toNat 1 % 256)]
        ∧ (oAltFail.releaseErr (Int.toNat 1 % 256) = none →
            (Config.Interface oAltFail cfg0 dev0 ⟨∅⟩ 1 1).2.2.1
              = ⟨Finset.erase ∅ (Int.toNat 1 % 256)⟩)
        ∧ (oAltFail.releaseErr (Int.toNat 1 % 256) = none →
            Int.toNat 1 % 256 ∉ (∅ : Finset Nat) →
            (Config.Interface oAltFail cfg0 dev0 ⟨∅⟩ 1 1).2.2.1 = ⟨∅⟩)) :=
  ⟨by decide, by decide,
   C2_interface_setalt_rollback oAltFail cfg0 dev0 ⟨∅⟩ 1 1 7
     (by decide) (by decide) (by decide) (by decide) (by decide) (by decide)⟩

/-- C9: when the claim succeeds, setAltSetting fails and the rollback release
also fails, Config.Interface still returns only the setAltSetting error (the
release error is discarded and nothing in the result records it), the
release call is still issued, and the interface stays claimed at the native
layer because the failed release did not remove it. -/
theorem C9_rollback_release_error_discarded (o : NativeOracle) (c : Config)
    (d : Device) (ns : NativeState) (intf alt : Int) (e re : Nat)
    (h0 : 0 ≤ intf) (h1 : intf < (c.Info.Interfaces.length : Int))
    (h2 : 0 ≤ alt)
    (h3 : alt < ((c.Info.Interfaces.getD intf.toNat ⟨[]⟩).AltSettings.length : Int))
    (hclaim : o.claimErr (intf.toNat % 256) = none)
    (halt : o.setAltErr (intf.toNat % 256) (alt.toNat % 256) = some e)
    (hrel : o.releaseErr (intf.toNat % 256) = some re) :
    (Config.Interface o c d ns intf alt).1 = .error (.setAltFailed alt intf e)
    ∧ (Config.Interface o c d ns intf alt).2.2.2 =
        [.callClaim d.handle (intf.toNat % 256),
         .callSetAlt d.handle (intf.toNat % 256) (alt.toNat % 256),
         .callRelease d.handle (intf.toNat % 256)]
    ∧ (Config.Interface o c d ns intf alt).2.2.1
        = ⟨insert (intf.toNat % 256) ns.claimed⟩ := by
  have hni : ¬(intf < 0 ∨ (c.Info.Interfaces.length : Int) ≤ intf) := by omega
  have hna : ¬(alt < 0 ∨
      ((c.Info.Interfaces.getD intf.toNat ⟨[]⟩).AltSettings.length : Int) ≤ alt) := by
    omega
  simp only [List.getD_eq_getElem?_getD] at hna
  refine ⟨?_, ?_, ?_⟩ <;>
    simp [Config.Interface, hni, hna, libusbClaim, libusbSetAlt, libusbRelease,
      hclaim, halt, hrel]

/-- Witness for C9: with setAltSetting failing with 7 and release failing
with 9, the caller sees only the setAltSetting error while the interface is
left claimed at the native layer. -/
theorem C9_rollback_release_error_discarded_witness :
    oAltRelFail.setAltErr (Int.toNat 1 % 256) (Int.toNat 1 % 256) = some 7
    ∧ oAltRelFail.releaseErr (Int.toNat 1 % 256) = some 9
    ∧ ((Config.Interface oAltRelFail cfg0 dev0 ⟨∅⟩ 1 1).1
          = .error (.setAltFailed 1 1 7)
        ∧ (Config.Interface oAltRelFail cfg0 dev0 ⟨∅⟩ 1 1).2.2.2 =
            [.callClaim dev0.handle (Int.toNat 1 % 256),
             .callSetAlt dev0.handle (Int.toNat 1 % 256) (Int.toNat 1 % 256),
             .callRelease dev0.handle (Int.toNat 1 % 256)]
        ∧ (Config.Interface oAltRelFail cfg0 dev0 ⟨∅⟩ 1 1).2.2.1
            = ⟨insert (Int.toNat 1 % 256) ∅⟩) :=
  ⟨by decide, by decide,
   C9_rollback_release_error_discarded oAltRelFail cfg0 dev0 ⟨∅⟩ 1 1 7 9
     (by decide) (by decide) (by decide) (by decide) (by decide) (by decide)
     (by decide)⟩

end Gousb

namespace Gousb

/-- C4: Device.Config scans the configuration list by configuration number:
when no entry matches it fails not-found with no native call and no state
change; when the first matching entry is info, a failing native
setConfiguration returns that error and leaves the device (in particular its
claimed field) unchanged, and a succeeding one returns a fresh Config for
info and records info as claimed, overwriting whatever was claimed before
without any precondition error. -/
theorem C4_device_config_lookup_and_claim (o : NativeOracle) (d : Device)
    (cfgNum : Int) :
    ((∀ info ∈ d.descriptor.Configs, info.Config ≠ cfgNum) →
      (Device.Config o d cfgNum).1 = .error (.configNotFound cfgNum)
      ∧ (Device.Config o d cfgNum).2.1 = d
      ∧ (Device.Config o d cfgNum).2.2 = [])
    ∧ (∀ info,
        d.descriptor.Configs.find? (fun i => i.Config == cfgNum) = some info →
      info ∈ d.descriptor.Configs
      ∧ info.Config = cfgNum
      ∧ (∀ e, o.setConfigErr (cfgNum % 256).toNat = some e →
          (Device.Config o d cfgNum).1 = .error (.setConfigFailed cfgNum e)
          ∧ (Device.Config o d cfgNum).2.1 = d
          ∧ (Device.Config o d cfgNum).2.2
              = [.callSetConfig d.handle (cfgNum % 256).toNat])
      ∧ (o.setConfigErr (cfgNum % 256).toNat = none →
          (Device.Config o d cfgNum).1
              = .ok { Info := info, ControlTimeout := 0, claimed := ∅ }
          ∧ (Device.Config o d cfgNum).2.1 = { d with claimed := some info }
          ∧ (Device.Config o d cfgNum).2.2
              = [.callSetConfig d.handle (cfgNum % 256).toNat,
                 .lockDev, .unlockDev])) := by
  constructor
  · intro h
    have hf : d.descriptor.Configs.find? (fun i => i.Config == cfgNum) = none := by
      rw [List.find?_eq_none]
      intro x hx
      simpa using h x hx
    simp [Device.Config, hf]
  · intro info hf
    refine ⟨List.mem_of_find?_eq_some hf, ?_, ?_, ?_⟩
    · simpa using List.find?_some hf
    · intro e he
      simp [Device.Config, hf, he]
    · intro he
      simp [Device.Config, hf, he]

/-- Witness for C4 on the sample device that has only configuration 1:
requesting configuration 2 fails not-found with no native call; requesting
configuration 1 on the all-succeeding oracle returns a fresh Config and
records it as claimed. -/
theorem C4_device_config_lookup_and_claim_witness :
    ((∀ info ∈ dev0.descriptor.Configs, info.Config ≠ 2)
      ∧ ((Device.Config oOk dev0 2).1 = .error (.configNotFound 2)
          ∧ (Device.Config oOk dev0 2).2.1 = dev0
          ∧ (Device.Config oOk dev0 2).2.2 = []))
    ∧ (dev0.descriptor.Configs.find? (fun i => i.Config == 1) = some cfgInfo1
      ∧ ((Device.Config oOk dev0 1).1
            = .ok { Info := cfgInfo1, ControlTimeout := 0, claimed := ∅ }
          ∧ (Device.Config oOk dev0 1).2.1 = { dev0 with claimed := some cfgInfo1 }
          ∧ (Device.Config oOk dev0 1).2.2
              = [.callSetConfig dev0.handle ((1 : Int) % 256).toNat,
                 .lockDev, .unlockDev])) :=
  ⟨⟨by decide, (C4_device_config_lookup_and_claim oOk dev0 2).1 (by decide)⟩,
   ⟨by decide,
    ((C4_device_config_lookup_and_claim oOk dev0 1).2 cfgInfo1 (by decide)).2.2.2
      (by decide)⟩⟩

/-- C10: on a closed Device (nil handle), GetStringDescriptor, SetAutoDetach,
ActiveConfig, Reset, Config and Config.Control perform no closed-handle
check: each passes the nil handle to the native layer and returns the native
pass-through result instead of a double-close error; only Device.Close
itself detects the closed state. -/
theorem C10_no_closed_handle_check (o : NativeOracle) (d : Device)
    (hd : d.handle = none) :
    (∀ i, (Device.GetStringDescriptor o d i).2 = [.callGetStringDesc none i]
      ∧ (Device.GetStringDescriptor o d i).1
          = ((o.stringDescRes i).1, (o.stringDescRes i).2.map .native))
    ∧ (∀ b, (Device.SetAutoDetach o d b).2
          = [.callSetAutoDetach none (if b then 1 else 0)]
      ∧ (Device.SetAutoDetach o d b).1 = o.autoDetachErr.map .native)
    ∧ ((Device.ActiveConfig o d).2.2 = [.callGetConfig none]
      ∧ (Device.ActiveConfig o d).1.2 = o.getConfigRes.2.map .native)
    ∧ (d.claimed = none →
        (Device.Reset o d).2.2 = [.lockDev, .callReset none, .unlockDev]
        ∧ (Device.Reset o d).1 = o.resetErr.map .native)
    ∧ (∀ cfgNum info,
        d.descriptor.Configs.find? (fun i => i.Config == cfgNum) = some info →
        (Device.Config o d cfgNum).2.2.head?
          = some (.callSetConfig none (cfgNum % 256).toNat))
    ∧ (∀ c rType request val idx data,
        (Config.Control o c d rType request val idx data).2
          = [.callControl none c.ControlTimeout rType request val idx data.length])
    ∧ (Device.Close d).1 = some .doubleClose := by
  refine ⟨?_, ?_, ?_, ?_, ?_, ?_, ?_⟩
  · intro i
    simp [Device.GetStringDescriptor, hd]
  · intro b
    simp [Device.SetAutoDetach, hd]
  · simp [Device.ActiveConfig, hd]
  · intro hc
    simp [Device.Reset, hc, hd]
  · intro cfgNum info hf
    cases he : o.setConfigErr (cfgNum % 256).toNat <;>
      simp [Device.Config, hf, he, hd]
  · intro c rType request val idx data
    simp [Config.Control, hd]
  · simp [Device.Close, hd]

/-- Witness for C10 on the closed sample device: every pass-through
operation calls the native layer with the nil handle, and only Close
reports double-close. -/
theorem C10_no_closed_handle_check_witness :
    devClosed.handle = none
    ∧ (((Device.GetStringDescriptor oOk devClosed 3).2
          = [.callGetStringDesc none 3]
        ∧ (Device.GetStringDescriptor oOk devClosed 3).1
            = ((oOk.stringDescRes 3).1, (oOk.stringDescRes 3).2.map .native))
      ∧ ((Device.ActiveConfig oOk devClosed).2.2 = [.callGetConfig none]
        ∧ (Device.ActiveConfig oOk devClosed).1.2
            = oOk.getConfigRes.2.map .native)
      ∧ (Device.Close devClosed).1 = some .doubleClose) :=
  ⟨rfl,
   (C10_no_closed_handle_check oOk devClosed rfl).1 3,
   (C10_no_closed_handle_check oOk devClosed rfl).2.2.1,
   (C10_no_closed_handle_check oOk devClosed rfl).2.2.2.2.2.2⟩

end Gousb

namespace Gousb

/-- Lock projection and lock-order scan of a Config.Interface trace: it
takes at most the config lock, and never the config lock under the device
lock. -/
theorem trace_locks_interface (o : NativeOracle) (c : Config) (d : Device)
    (ns : NativeState) (intf alt : Int) :
    (lockEvents (Config.Interface o c d ns intf alt).2.2.2 = []
      ∨ lockEvents (Config.Interface o c d ns intf alt).2.2.2
          = [.lockCfg, .unlockCfg])
    ∧ acquiresCfgWhileDevHeld false (Config.Interface o c d ns intf alt).2.2.2
        = false := by
  by_cases hI : intf < 0 ∨ (c.Info.Interfaces.length : Int) ≤ intf
  · simp [Config.Interface, hI, lockEvents, acquiresCfgWhileDevHeld]
  · by_cases hA : alt < 0 ∨
        ((c.Info.Interfaces.getD intf.toNat ⟨[]⟩).AltSettings.length : Int) ≤ alt
    · simp only [List.getD_eq_getElem?_getD] at hA
      simp [Config.Interface, hI, hA, lockEvents, acquiresCfgWhileDevHeld]
    · simp only [List.getD_eq_getElem?_getD] at hA
      cases hcl : o.claimErr (intf.toNat % 256) with
      | some e =>
        simp [Config.Interface, hI, hA, libusbClaim, hcl, lockEvents,
          acquiresCfgWhileDevHeld]
      | none =>
        cases hsa : o.setAltErr (intf.toNat % 256) (alt.toNat % 256) with
        | some e =>
          cases hre : o.releaseErr (intf.toNat % 256) with
          | some r =>
            simp [Config.Interface, hI, hA, libusbClaim, libusbSetAlt,
              libusbRelease, hcl, hsa, hre, lockEvents, acquiresCfgWhileDevHeld]
          | none =>
            simp [Config.Interface, hI, hA, libusbClaim, libusbSetAlt,
              libusbRelease, hcl, hsa, hre, lockEvents, acquiresCfgWhileDevHeld]
        | none =>
          simp [Config.Interface, hI, hA, libusbClaim, libusbSetAlt, hcl, hsa,
            lockEvents, acquiresCfgWhileDevHeld]

/-- Lock projection and lock-order scan of a Device.Config trace: it takes
at most the device lock and never touches the config lock. -/
theorem trace_locks_device_config (o : NativeOracle) (d : Device) (cfgNum : Int) :
    (lockEvents (Device.Config o d cfgNum).2.2 = []
      ∨ lockEvents (Device.Config o d cfgNum).2.2 = [.lockDev, .unlockDev])
    ∧ acquiresCfgWhileDevHeld false (Device.Config o d cfgNum).2.2 = false := by
  cases hf : d.descriptor.Configs.find? (fun i => i.Config == cfgNum) with
  | none => simp [Device.Config, hf, lockEvents, acquiresCfgWhileDevHeld]
  | some info =>
    cases he : o.setConfigErr (cfgNum % 256).toNat with
    | some e => simp [Device.Config, hf, he, lockEvents, acquiresCfgWhileDevHeld]
    | none => simp [Device.Config, hf, he, lockEvents, acquiresCfgWhileDevHeld]

/-- Lock projection and lock-order scan of a Device.Close trace: it takes at
most the device lock and never touches the config lock. -/
theorem trace_locks_device_close (d : Device) :
    (lockEvents (Device.Close d).2.2 = []
      ∨ lockEvents (Device.Close d).2.2 = [.lockDev, .unlockDev])
    ∧ acquiresCfgWhileDevHeld false (Device.Close d).2.2 = false := by
  by_cases hh : d.handle = none
  · simp [Device.Close, hh, lockEvents, acquiresCfgWhileDevHeld]
  · cases hc : d.claimed with
    | some info => simp [Device.Close, hh, hc, lockEvents, acquiresCfgWhileDevHeld]
    | none => simp [Device.Close, hh, hc, lockEvents, acquiresCfgWhileDevHeld]

/-- Lock projection and lock-order scan of a Device.Reset trace: it takes
exactly the device lock and never the config lock. -/
theorem trace_locks_device_reset (o : NativeOracle) (d : Device) :
    lockEvents (Device.Reset o d).2.2 = [.lockDev, .unlockDev]
    ∧ acquiresCfgWhileDevHeld false (Device.Reset o d).2.2 = false := by
  by_cases hc : d.claimed.isSome <;>
    simp [Device.Reset, hc, lockEvents, acquiresCfgWhileDevHeld]

/-- Lock projection and lock-order scan of a Config.Close trace: the config
lock is acquired first and the device lock, when taken at all, is taken and
released strictly inside it. -/
theorem trace_locks_config_close (c : Config) (d : Device) :
    (lockEvents (Config.Close c d).2.2.2 = [.lockCfg, .unlockCfg]
      ∨ lockEvents (Config.Close c d).2.2.2
          = [.lockCfg, .lockDev, .unlockDev, .unlockCfg])
    ∧ acquiresCfgWhileDevHeld false (Config.Close c d).2.2.2 = false := by
  unfold Config.Close
  split <;> simp [lockEvents, acquiresCfgWhileDevHeld]

/-- C6: the lock-ordering invariant. Config.Close is the only operation
whose trace can hold both locks: it takes the config lock first and nests
the device lock inside it. Config.Interface takes at most the config lock;
Device.Reset, Device.Config and Device.Close take at most the device lock;
Control, ActiveConfig, GetStringDescriptor and SetAutoDetach take no lock;
and no operation ever acquires the config lock while holding the device
lock. -/
theorem C6_lock_ordering :
    (∀ (o : NativeOracle) (c : Config) (d : Device) rType request val idx data,
      lockEvents (Config.Control o c d rType request val idx data).2 = []
      ∧ acquiresCfgWhileDevHeld false
          (Config.Control o c d rType request val idx data).2 = false)
    ∧ (∀ (o : NativeOracle) (d : Device),
      lockEvents (Device.ActiveConfig o d).2.2 = []
      ∧ acquiresCfgWhileDevHeld false (Device.ActiveConfig o d).2.2 = false)
    ∧ (∀ (o : NativeOracle) (d : Device) (i : Int),
      lockEvents (Device.GetStringDescriptor o d i).2 = []
      ∧ acquiresCfgWhileDevHeld false (Device.GetStringDescriptor o d i).2 = false)
    ∧ (∀ (o : NativeOracle) (d : Device) (b : Bool),
      lockEvents (Device.SetAutoDetach o d b).2 = []
      ∧ acquiresCfgWhileDevHeld false (Device.SetAutoDetach o d b).2 = false)
    ∧ (∀ (o : NativeOracle) (d : Device),
      lockEvents (Device.Reset o d).2.2 = [.lockDev, .unlockDev]
      ∧ acquiresCfgWhileDevHeld false (Device.Reset o d).2.2 = false)
    ∧ (∀ (o : NativeOracle) (d : Device) (cfgNum : Int),
      (lockEvents (Device.Config o d cfgNum).2.2 = []
        ∨ lockEvents (Device.Config o d cfgNum).2.2 = [.lockDev, .unlockDev])
      ∧ acquiresCfgWhileDevHeld false (Device.Config o d cfgNum).2.2 = false)
    ∧ (∀ (d : Device),
      (lockEvents (Device.Close d).2.2 = []
        ∨ lockEvents (Device.Close d).2.2 = [.lockDev, .unlockDev])
      ∧ acquiresCfgWhileDevHeld false (Device.Close d).2.2 = false)
    ∧ (∀ (o : NativeOracle) (c : Config) (d : Device) (ns : NativeState)
        (intf alt : Int),
      (lockEvents (Config.Interface o c d ns intf alt).2.2.2 = []
        ∨ lockEvents (Config.Interface o c d ns intf alt).2.2.2
            = [.lockCfg, .unlockCfg])
      ∧ acquiresCfgWhileDevHeld false
          (Config.Interface o c d ns intf alt).2.2.2 = false)
    ∧ (∀ (c : Config) (d : Device),
      (lockEvents (Config.Close c d).2.2.2 = [.lockCfg, .unlockCfg]
        ∨ lockEvents (Config.Close c d).2.2.2
            = [.lockCfg, .lockDev, .unlockDev, .unlockCfg])
      ∧ acquiresCfgWhileDevHeld false (Config.Close c d).2.2.2 = false) := by
  refine ⟨?_, ?_, ?_, ?_, ?_, ?_, ?_, ?_, ?_⟩
  · intro o c d rType request val idx data
    simp [Config.Control, lockEvents, acquiresCfgWhileDevHeld]
  · intro o d
    simp [Device.ActiveConfig, lockEvents, acquiresCfgWhileDevHeld]
  · intro o d i
    simp [Device.GetStringDescriptor, lockEvents, acquiresCfgWhileDevHeld]
  · intro o d b
    simp [Device.SetAutoDetach, lockEvents, acquiresCfgWhileDevHeld]
  · intro o d
    exact trace_locks_device_reset o d
  · intro o d cfgNum
    exact trace_locks_device_config o d cfgNum
  · intro d
    exact trace_locks_device_close d
  · intro o c d ns intf alt
    exact trace_locks_interface o c d ns intf alt
  · intro c d
    exact trace_locks_config_close c d

end Gousb
